import Mathlib

/-!
Shallow embedding of the full-stack code generator (`generator.js` together
with its sibling variant in the repository): the naming transformers, the
schema model, feature-flag resolution, the skeleton-directory list and the
artifact plan, with proofs of the structural properties the repository's
design documentation states about them.

Strings are modelled by their character lists; JavaScript string methods
are modelled on the ASCII fragment, which covers every identifier the
generator manipulates.
-/

namespace AMAA

/-- ASCII model of JavaScript `toUpperCase` on one character. -/
def jsToUpper (c : Char) : Char :=
  if 'a' ≤ c ∧ c ≤ 'z' then Char.ofNat (c.toNat - 32) else c

/-- ASCII model of JavaScript `toLowerCase` on one character. -/
def jsToLower (c : Char) : Char :=
  if 'A' ≤ c ∧ c ≤ 'Z' then Char.ofNat (c.toNat + 32) else c

/-- JavaScript regex class `\w`, i.e. `[A-Za-z0-9_]`. -/
def isWordChar (c : Char) : Bool :=
  ('a' ≤ c && c ≤ 'z') || ('A' ≤ c && c ≤ 'Z') || ('0' ≤ c && c ≤ '9') || c = '_'

/-- Left-to-right global scan of the regex `-\w` over the portion of the
string after position 0 (where `^\w` can no longer match): a hyphen followed by a
word character is replaced by that character upper-cased; at a failed match
the engine advances one position. -/
def pascalRest : List Char → List Char
  | [] => []
  | c :: rest =>
    if c = '-' then
      match rest with
      | [] => ['-']
      | d :: rest' =>
        if isWordChar d then jsToUpper d :: pascalRest rest'
        else '-' :: pascalRest (d :: rest')
    else c :: pascalRest rest

/-- The source's `toPascal`:
`s => s.replace(/(^\w|-\w)/g, c => c.replace('-', '').toUpperCase())`.
At position 0 the alternative `^\w` is tried first; afterwards only `-\w`
can match. -/
def pascalList (s : List Char) : List Char :=
  match s with
  | [] => []
  | c :: rest =>
    if isWordChar c then jsToUpper c :: pascalRest rest else pascalRest (c :: rest)

/-- The source's `toKebab`:
`s => s.replace(/([A-Z])/g, '-$1').toLowerCase()`. A hyphen is inserted
before every upper-case character — including one at position 0 — and then
the whole string is lower-cased. -/
def kebabList (s : List Char) : List Char :=
  (s.flatMap fun c => if 'A' ≤ c ∧ c ≤ 'Z' then ['-', c] else [c]).map jsToLower

/-- The source's `toCamel`: `s => s[0].toLowerCase() + toPascal(s).slice(1)`.
On the empty string `s[0]` is `undefined` and `.toLowerCase()` throws, so the
function is modelled as partial. -/
def camelList : List Char → Option (List Char)
  | [] => none
  | c :: rest => some (jsToLower c :: (pascalList (c :: rest)).drop 1)

/-- The `String` wrapper of `pascalList`. -/
def toPascal (s : String) : String := ⟨pascalList s.data⟩

/-- The `String` wrapper of `kebabList`. -/
def toKebab (s : String) : String := ⟨kebabList s.data⟩

/-- The `String` wrapper of `camelList`. -/
def toCamel (s : String) : Option String := (camelList s.data).map String.mk

/-!
## Schema model and feature-flag resolution

A JSON feature-flag field is absent, `null`, or a boolean. JavaScript
destructuring defaults (`graphql = enableGraphQL`, …) replace only the
value `undefined` — i.e. an absent field — and leave `null` untouched.
-/

/-- A feature-flag field of the schema document. -/
inductive JsonFlag
  | absent
  | null
  | bool (b : Bool)
deriving DecidableEq, Repr

/-- One entity of the schema: `name` and `tableName` are the only fields
the engine reads itself. -/
structure Entity where
  name : String
  tableName : String
deriving DecidableEq, Repr

/-- The parsed schema document (fields the generator destructures). -/
structure Schema where
  projectName : Option String := none
  database : Option String := none
  dbDev : Option String := none
  dbTest : Option String := none
  authEntity : Option String := none
  entities : List Entity := []
  graphql : JsonFlag := .absent
  docker : JsonFlag := .absent
  ci : JsonFlag := .absent
  terraform : JsonFlag := .absent
  adminPanel : JsonFlag := .absent
deriving DecidableEq, Repr

/-- Command-line options (commander defaults:
graphql `false`, docker `true`, ci `true`, terraform `true`, admin `true`). -/
structure Opts where
  schemaPath : String := "schema.json"
  output : String := "my-app"
  graphql : Bool := false
  docker : Bool := true
  ci : Bool := true
  terraform : Bool := true
  admin : Bool := true
deriving DecidableEq, Repr

/-- Destructuring with a default, e.g. `graphql = enableGraphQL`: an absent
field (JavaScript `undefined`) takes the command-line default; `null` and
explicit booleans pass through. The result is a JavaScript value that may
still be `null`, modelled as `Option Bool`. -/
def resolveFlag (f : JsonFlag) (d : Bool) : Option Bool :=
  match f with
  | .absent => some d
  | .null => none
  | .bool b => some b

/-- JavaScript truthiness of a resolved flag value (`null` is falsy). -/
def truthy (v : Option Bool) : Bool := v.getD false

/-!
## Skeleton directories and the artifact plan of `generator.js`

`generator.js` gates the admin and terraform skeleton directories on the
raw command-line flags (`enableAdmin`, `enableTerraform`), the docker, ci
and terraform file blocks on the schema-resolved values, and the graphql
and admin file blocks on the raw command-line flags (`enableGraphQL`,
`enableAdmin`). The sibling variant (`src/unnamed/part_000`) gates its
skeleton directories and all file blocks on the schema-resolved values.
-/

/-- One planned artifact: the template identifier and the destination path. -/
structure PlanEntry where
  templateId : String
  dest : String
deriving DecidableEq, Repr

/-- Destination of the per-entity model file. -/
def modelDest (out : String) (e : Entity) : String :=
  out ++ "/backend/src/models/" ++ e.name ++ ".ts"

/-- The character of one decimal digit (total, clamped above 9). -/
def digitChar : Nat → Char
  | 0 => '0' | 1 => '1' | 2 => '2' | 3 => '3' | 4 => '4'
  | 5 => '5' | 6 => '6' | 7 => '7' | 8 => '8' | _ => '9'

/-- Fuel-driven accumulator loop for decimal rendering; the fuel bounds the
digit count, and `n + 1` fuel always suffices. -/
def natDecimalAux : Nat → Nat → List Char → List Char
  | 0, _, acc => acc
  | fuel + 1, n, acc =>
    if n < 10 then digitChar n :: acc
    else natDecimalAux fuel (n / 10) (digitChar (n % 10) :: acc)

/-- Decimal rendering of a JavaScript number (natural) as interpolated by a
template literal. -/
def natDecimal (n : Nat) : List Char := natDecimalAux (n + 1) n []

/-- Destination of the per-entity migration file; `t` is the `Date.now()`
reading taken in that loop iteration. -/
def migrationDest (out : String) (t : Nat) (e : Entity) : String :=
  out ++ "/backend/migrations/" ++ ⟨natDecimal t⟩ ++ "-create-" ++ e.tableName ++ ".ts"

/-- Destination of the per-entity test file. -/
def testDest (out : String) (e : Entity) : String :=
  out ++ "/backend/tests/" ++ e.name ++ ".test.ts"

/-- Destination of the per-entity controller file. -/
def controllerDest (out : String) (e : Entity) : String :=
  out ++ "/backend/src/controllers/" ++ e.name ++ "Controller.ts"

/-- Destination of the per-entity route file. -/
def routeDest (out : String) (e : Entity) : String :=
  out ++ "/backend/src/routes/" ++ toKebab e.name ++ ".ts"

/-- The feature directory of an entity: `FRONT/src/app/features/${kebab}`. -/
def featureDir (out : String) (e : Entity) : String :=
  out ++ "/frontend/src/app/features/" ++ toKebab e.name

/-- The shared stem `${featurePath}/${kebab}` of the six per-entity
frontend artifact names. -/
def featureStem (out : String) (e : Entity) : String :=
  featureDir out e ++ "/" ++ toKebab e.name

/-- The suffixes of the six per-entity frontend artifacts. -/
def featureSuffixes : List (String × String) :=
  [("frontend/src/app/features/entity/entity.module.ts.ejs", ".module.ts"),
   ("frontend/src/app/features/entity/entity.service.ts.ejs", ".service.ts"),
   ("frontend/src/app/features/entity/entity-list.component.html.ejs", "-list.component.html"),
   ("frontend/src/app/features/entity/entity-list.component.ts.ejs", "-list.component.ts"),
   ("frontend/src/app/features/entity/entity-form.component.html.ejs", "-form.component.html"),
   ("frontend/src/app/features/entity/entity-form.component.ts.ejs", "-form.component.ts")]

/-- The six per-entity frontend artifacts. -/
def featureEntries (out : String) (e : Entity) : List PlanEntry :=
  featureSuffixes.map fun p => ⟨p.1, featureStem out e ++ p.2⟩

/-- The models + migrations + tests loop: one `Date.now()` reading per
iteration, `clock i` being the value returned by the `i`-th call. -/
def modelLoop (out : String) (clock : Nat → Nat) : List Entity → Nat → List PlanEntry
  | [], _ => []
  | e :: es, i =>
    ⟨"backend/src/models/model.ts.ejs", modelDest out e⟩ ::
    ⟨"backend/migrations/create-table.ts.ejs", migrationDest out (clock i) e⟩ ::
    ⟨"backend/tests/model.test.ts.ejs", testDest out e⟩ ::
    modelLoop out clock es (i + 1)

/-- The controllers + routes loop. -/
def controllerLoop (out : String) : List Entity → List PlanEntry
  | [] => []
  | e :: es =>
    ⟨"backend/src/controllers/controller.ts.ejs", controllerDest out e⟩ ::
    ⟨"backend/src/routes/route.ts.ejs", routeDest out e⟩ ::
    controllerLoop out es

/-- The frontend feature-module loop. -/
def featureLoop (out : String) : List Entity → List PlanEntry
  | [] => []
  | e :: es => featureEntries out e ++ featureLoop out es

/-- A conditional block of the plan. -/
def gate (b : Bool) (l : List PlanEntry) : List PlanEntry := if b then l else []

/-- The docker file block. -/
def dockerEntries (out : String) : List PlanEntry :=
  [⟨"docker/Dockerfile.backend", out ++ "/backend/Dockerfile"⟩,
   ⟨"docker/Dockerfile.frontend", out ++ "/frontend/Dockerfile"⟩,
   ⟨"docker/docker-compose.yml", out ++ "/docker-compose.yml"⟩]

/-- The ci file block. -/
def ciEntries (out : String) : List PlanEntry :=
  [⟨"ci/github-workflow.yml", out ++ "/.github/workflows/ci.yml"⟩]

/-- The terraform file block. -/
def terraformEntries (out : String) : List PlanEntry :=
  [⟨"terraform/main.tf", out ++ "/terraform/main.tf"⟩,
   ⟨"terraform/variables.tf", out ++ "/terraform/variables.tf"⟩,
   ⟨"terraform/outputs.tf", out ++ "/terraform/outputs.tf"⟩,
   ⟨"terraform/terraform.tfvars.example", out ++ "/terraform/terraform.tfvars.example"⟩]

/-- The fixed backend files of `generator.js`. -/
def backendFixedEntries (out : String) : List PlanEntry :=
  [⟨"backend/package.json.ejs", out ++ "/backend/package.json"⟩,
   ⟨"backend/tsconfig.json.ejs", out ++ "/backend/tsconfig.json"⟩,
   ⟨"backend/.env.example", out ++ "/backend/.env.example"⟩,
   ⟨"backend/src/server.ts.ejs", out ++ "/backend/src/server.ts"⟩,
   ⟨"backend/src/config/database.ts.ejs", out ++ "/backend/src/config/database.ts"⟩,
   ⟨"backend/src/middleware/auth.ts.ejs", out ++ "/backend/src/middleware/auth.ts"⟩,
   ⟨"backend/src/middleware/upload.ts.ejs", out ++ "/backend/src/middleware/upload.ts"⟩,
   ⟨"backend/src/middleware/error.ts.ejs", out ++ "/backend/src/middleware/error.ts"⟩]

/-- The graphql file block. -/
def graphqlEntries (out : String) : List PlanEntry :=
  [⟨"backend/src/graphql/typeDefs.ts.ejs", out ++ "/backend/src/graphql/typeDefs.ts"⟩,
   ⟨"backend/src/graphql/resolvers.ts.ejs", out ++ "/backend/src/graphql/resolvers.ts"⟩]

/-- The fixed frontend files. -/
def frontendFixedEntries (out : String) : List PlanEntry :=
  [⟨"frontend/package.json.ejs", out ++ "/frontend/package.json"⟩,
   ⟨"frontend/angular.json.ejs", out ++ "/frontend/angular.json"⟩,
   ⟨"frontend/tsconfig.json.ejs", out ++ "/frontend/tsconfig.json"⟩,
   ⟨"frontend/src/index.html.ejs", out ++ "/frontend/src/index.html"⟩,
   ⟨"frontend/src/main.ts.ejs", out ++ "/frontend/src/main.ts"⟩,
   ⟨"frontend/src/polyfills.ts.ejs", out ++ "/frontend/src/polyfills.ts"⟩,
   ⟨"frontend/src/styles.scss.ejs", out ++ "/frontend/src/styles.scss"⟩,
   ⟨"frontend/src/app/app.module.ts.ejs", out ++ "/frontend/src/app/app.module.ts"⟩,
   ⟨"frontend/src/app/app-routing.module.ts.ejs", out ++ "/frontend/src/app/app-routing.module.ts"⟩,
   ⟨"frontend/src/app/app.component.html.ejs", out ++ "/frontend/src/app/app.component.html"⟩,
   ⟨"frontend/src/app/app.component.ts.ejs", out ++ "/frontend/src/app/app.component.ts"⟩,
   ⟨"frontend/src/app/core/auth/auth.service.ts.ejs", out ++ "/frontend/src/app/core/auth/auth.service.ts"⟩,
   ⟨"frontend/src/app/core/auth/jwt.interceptor.ts.ejs", out ++ "/frontend/src/app/core/auth/jwt.interceptor.ts"⟩,
   ⟨"frontend/src/app/core/auth/auth.guard.ts.ejs", out ++ "/frontend/src/app/core/auth/auth.guard.ts"⟩]

/-- The admin (Ngx-Admin) file block. -/
def adminEntries (out : String) : List PlanEntry :=
  [⟨"frontend/src/app/@theme/@theme.module.ts.ejs", out ++ "/frontend/src/app/@theme/@theme.module.ts"⟩,
   ⟨"frontend/src/app/@theme/styles/themes.scss.ejs", out ++ "/frontend/src/app/@theme/styles/themes.scss"⟩,
   ⟨"frontend/src/app/pages/pages.module.ts.ejs", out ++ "/frontend/src/app/pages/pages.module.ts"⟩,
   ⟨"frontend/src/app/pages/dashboard/dashboard.component.html.ejs", out ++ "/frontend/src/app/pages/dashboard/dashboard.component.html"⟩,
   ⟨"frontend/src/app/pages/dashboard/dashboard.component.ts.ejs", out ++ "/frontend/src/app/pages/dashboard/dashboard.component.ts"⟩]

/-- The route-aggregation file. -/
def routesIndexEntry (out : String) : PlanEntry :=
  ⟨"backend/src/routes/index.ts.ejs", out ++ "/backend/src/routes/index.ts"⟩

/-- The full artifact plan of `generator.js`, in source order. The docker,
ci and terraform blocks read the schema-resolved flags; the graphql and
admin blocks read the raw command-line flags (`enableGraphQL`,
`enableAdmin`), exactly as in the source. -/
def planGen (sch : Schema) (o : Opts) (clock : Nat → Nat) : List PlanEntry :=
  gate (truthy (resolveFlag sch.docker o.docker)) (dockerEntries o.output) ++
  gate (truthy (resolveFlag sch.ci o.ci)) (ciEntries o.output) ++
  gate (truthy (resolveFlag sch.terraform o.terraform)) (terraformEntries o.output) ++
  backendFixedEntries o.output ++
  modelLoop o.output clock sch.entities 0 ++
  controllerLoop o.output sch.entities ++
  [routesIndexEntry o.output] ++
  gate o.graphql (graphqlEntries o.output) ++
  frontendFixedEntries o.output ++
  featureLoop o.output sch.entities ++
  gate o.admin (adminEntries o.output)

/-- The fixed part of the skeleton-directory list. -/
def baseDirs (out : String) : List String :=
  [out ++ "/backend/src/models",
   out ++ "/backend/src/controllers",
   out ++ "/backend/src/routes",
   out ++ "/backend/src/middleware",
   out ++ "/backend/src/graphql",
   out ++ "/backend/tests",
   out ++ "/backend/uploads",
   out ++ "/frontend/src/app/core",
   out ++ "/frontend/src/app/features",
   out ++ "/frontend/src/app/shared"]

/-- The admin skeleton directories. -/
def adminDirs (out : String) : List String :=
  [out ++ "/frontend/src/app/@theme/layouts", out ++ "/frontend/src/app/pages"]

/-- The skeleton-directory list of `generator.js`: the conditional
directories are gated on the raw command-line flags `enableAdmin` and
`enableTerraform`. -/
def skeletonDirs (o : Opts) : List String :=
  baseDirs o.output ++
  (if o.admin then adminDirs o.output else []) ++
  (if o.terraform then [o.output ++ "/terraform"] else [])

/-- The skeleton-directory list of the sibling variant
(`src/unnamed/part_000`): the conditional directories are gated on the
schema-resolved flags `adminPanel` and `terraform`. -/
def skeletonDirsAlt (sch : Schema) (o : Opts) : List String :=
  baseDirs o.output ++
  (if truthy (resolveFlag sch.adminPanel o.admin) then adminDirs o.output else []) ++
  (if truthy (resolveFlag sch.terraform o.terraform) then [o.output ++ "/terraform"] else [])

/-!
## Top-level control flow

The script checks `fs.existsSync(schemaPath)` and calls `process.exit(1)`
after a `console.error` when the file is missing; a `JSON.parse` failure
throws an uncaught `SyntaxError`, which node reports on stderr and turns
into a non-zero exit. Both happen before `fs.emptyDirSync(outDir)` and the
skeleton/render phases. The success branch clears the output directory,
creates the skeleton and renders the plan (renders are not awaited, so the
trace records them in issue order).
-/

/-- Outcome of loading the schema document. -/
inductive LoadResult
  | notFound
  | parseError
  | ok (sch : Schema)

/-- One observable side effect of the script. -/
inductive Eff
  | errLog (msg : String)
  | emptyDir (d : String)
  | ensureDir (d : String)
  | writeFile (dest : String)
deriving DecidableEq, Repr

/-- The effect trace of one run of `generator.js`. -/
def mainEffects (load : LoadResult) (o : Opts) (clock : Nat → Nat) : List Eff :=
  match load with
  | .notFound => [.errLog ("Schema not found: " ++ o.schemaPath)]
  | .parseError => [.errLog "SyntaxError: JSON.parse"]
  | .ok sch =>
    .emptyDir o.output ::
    ((skeletonDirs o).map .ensureDir ++
     (sch.entities.map fun e => .ensureDir (featureDir o.output e)) ++
     (planGen sch o clock).map fun e => .writeFile e.dest)

/-- The process exit code of one run. -/
def mainExit (load : LoadResult) : Nat :=
  match load with
  | .notFound => 1
  | .parseError => 1
  | .ok _ => 0

/-!
## Comparison definitions written from the specification's words

These are deliberately not translations of the source; they state what the
documentation says the naming transform does, so that the source-derived
`toKebab` can be compared against them.
-/

/-- Modelled from the spec: `toKebab` as the claim words it — a hyphen is
inserted before every upper-case character *except a leading one*, and the
whole string is lower-cased. -/
def kebabClaim (s : String) : String :=
  match s.data with
  | [] => ""
  | c :: rest =>
    ⟨jsToLower c ::
      (rest.flatMap fun d => if 'A' ≤ d ∧ d ≤ 'Z' then ['-', d] else [d]).map jsToLower⟩

/-- The amended reading of the same sentence: a hyphen is inserted before
every upper-case character *including a leading one*, and the whole string
is lower-cased (stated by direct recursion, to be compared with the
source's replace-then-lowercase pipeline). -/
def kebabAmendedList : List Char → List Char
  | [] => []
  | c :: rest =>
    if 'A' ≤ c ∧ c ≤ 'Z' then '-' :: jsToLower c :: kebabAmendedList rest
    else jsToLower c :: kebabAmendedList rest

/-- The `String` form of `kebabAmendedList`. -/
def kebabAmended (s : String) : String := ⟨kebabAmendedList s.data⟩

/-!
## Migration entries and their embedded timestamps
-/

/-- The template id of migration entries. -/
def migrationTemplateId : String := "backend/migrations/create-table.ts.ejs"

/-- The destination paths of the plan's migration entries. -/
def migrationDests (sch : Schema) (o : Opts) (clock : Nat → Nat) : List String :=
  ((planGen sch o clock).filter fun e => e.templateId == migrationTemplateId).map (·.dest)

/-- Parse the leading decimal run of a character list. -/
def leadingNatAux (acc : Nat) : List Char → Nat
  | [] => acc
  | c :: rest => if c.isDigit then leadingNatAux (acc * 10 + (c.toNat - 48)) rest else acc

/-- The timestamp-derived component embedded in a migration destination:
the decimal run that follows `out ++ "/backend/migrations/"`. -/
def embeddedStamp (out : String) (d : String) : Nat :=
  leadingNatAux 0 (d.data.drop (out.length + 20))

/-- The embedded timestamp components of a run's migration entries, in
plan order. -/
def migStamps (sch : Schema) (o : Opts) (clock : Nat → Nat) : List Nat :=
  (migrationDests sch o clock).map (embeddedStamp o.output)

/-- A two-entity schema. -/
def twoEntitySchema : Schema :=
  { entities := [⟨"Post", "posts"⟩, ⟨"Comment", "comments"⟩] }

/-!
## C5 — raw-flag versus resolved-flag gating
-/

/-- A schema that disables terraform explicitly. -/
def c5Schema : Schema := { terraform := .bool false }

/-!
## C6 — Scenario A under the stated defaults
-/

/-- Scenario A's schema. -/
def scenarioSchema : Schema :=
  { projectName := some "Blog", entities := [⟨"Post", "posts"⟩] }

/-- The non-migration filter used to state clock independence. -/
def nonMigration (e : PlanEntry) : Bool := e.templateId != migrationTemplateId

/-!
## C7 — destination-path uniqueness

First the counterexample: an entity whose kebab-cased name is `index`
makes the per-entity route file collide with the route-aggregation file.
-/

/-- A schema with one entity named `index`. -/
def c7Schema : Schema := { entities := [⟨"index", "indexes"⟩] }

/-- Options with every feature flag off and a short output root. -/
def c7Opts : Opts :=
  { schemaPath := "schema.json", output := "o",
    graphql := false, docker := false, ci := false, terraform := false, admin := false }

/-!
### Output-relative destination suffixes

Every destination of the plan is `out ++ suffix`; the suffixes below are
those of `planGen`, with the entity-dependent parts kept as functions.
-/

/-- Relative destination of a model file. -/
def modelSuffix (e : Entity) : String := "/backend/src/models/" ++ e.name ++ ".ts"

/-- Relative destination of a migration file. -/
def migSuffix (t : Nat) (e : Entity) : String :=
  "/backend/migrations/" ++ ⟨natDecimal t⟩ ++ "-create-" ++ e.tableName ++ ".ts"

/-- Relative destination of a test file. -/
def testSuffix (e : Entity) : String := "/backend/tests/" ++ e.name ++ ".test.ts"

/-- Relative destination of a controller file. -/
def controllerSuffix (e : Entity) : String :=
  "/backend/src/controllers/" ++ e.name ++ "Controller.ts"

/-- Relative destination of a route file. -/
def routeSuffix (e : Entity) : String :=
  "/backend/src/routes/" ++ toKebab e.name ++ ".ts"

/-- Relative stem of the six frontend feature files. -/
def featureStemSuffix (e : Entity) : String :=
  "/frontend/src/app/features/" ++ toKebab e.name ++ "/" ++ toKebab e.name

/-- Relative destinations of the six frontend feature files. -/
def featureSufList (e : Entity) : List String :=
  featureSuffixes.map fun p => featureStemSuffix e ++ p.2

/-- Relative destinations of the docker block. -/
def dockerSuffixes : List String :=
  ["/backend/Dockerfile", "/frontend/Dockerfile", "/docker-compose.yml"]

/-- Relative destinations of the ci block. -/
def ciSuffixes : List String := ["/.github/workflows/ci.yml"]

/-- Relative destinations of the terraform block. -/
def terraformSuffixes : List String :=
  ["/terraform/main.tf", "/terraform/variables.tf", "/terraform/outputs.tf",
   "/terraform/terraform.tfvars.example"]

/-- Relative destinations of the fixed backend files. -/
def backendFixedSuffixes : List String :=
  ["/backend/package.json", "/backend/tsconfig.json", "/backend/.env.example",
   "/backend/src/server.ts", "/backend/src/config/database.ts",
   "/backend/src/middleware/auth.ts", "/backend/src/middleware/upload.ts",
   "/backend/src/middleware/error.ts"]

/-- Relative destination of the route-aggregation file. -/
def routesIndexSuffix : String := "/backend/src/routes/index.ts"

/-- Relative destinations of the graphql block. -/
def graphqlSuffixes : List String :=
  ["/backend/src/graphql/typeDefs.ts", "/backend/src/graphql/resolvers.ts"]

/-- Relative destinations of the fixed frontend files. -/
def frontendFixedSuffixes : List String :=
  ["/frontend/package.json", "/frontend/angular.json", "/frontend/tsconfig.json",
   "/frontend/src/index.html", "/frontend/src/main.ts", "/frontend/src/polyfills.ts",
   "/frontend/src/styles.scss", "/frontend/src/app/app.module.ts",
   "/frontend/src/app/app-routing.module.ts", "/frontend/src/app/app.component.html",
   "/frontend/src/app/app.component.ts", "/frontend/src/app/core/auth/auth.service.ts",
   "/frontend/src/app/core/auth/jwt.interceptor.ts", "/frontend/src/app/core/auth/auth.guard.ts"]

/-- Relative destinations of the admin block. -/
def adminSuffixes : List String :=
  ["/frontend/src/app/@theme/@theme.module.ts", "/frontend/src/app/@theme/styles/themes.scss",
   "/frontend/src/app/pages/pages.module.ts",
   "/frontend/src/app/pages/dashboard/dashboard.component.html",
   "/frontend/src/app/pages/dashboard/dashboard.component.ts"]

/-- Relative destinations of the models + migrations + tests loop. -/
def loop1Suffixes (clock : Nat → Nat) : List Entity → Nat → List String
  | [], _ => []
  | e :: es, i =>
    modelSuffix e :: migSuffix (clock i) e :: testSuffix e :: loop1Suffixes clock es (i + 1)

/-- Relative destinations of the controllers + routes loop. -/
def loop2Suffixes : List Entity → List String
  | [] => []
  | e :: es => controllerSuffix e :: routeSuffix e :: loop2Suffixes es

/-- Relative destinations of the frontend feature loop. -/
def featLoopSuffixes : List Entity → List String
  | [] => []
  | e :: es => featureSufList e ++ featLoopSuffixes es

/-- The relative destinations of the whole plan, with the five gate values
made explicit. -/
def gatedSuffixes (gd gc gt gq ga : Bool) (clock : Nat → Nat) (es : List Entity) : List String :=
  (if gd then dockerSuffixes else []) ++
  (if gc then ciSuffixes else []) ++
  (if gt then terraformSuffixes else []) ++
  backendFixedSuffixes ++
  loop1Suffixes clock es 0 ++
  loop2Suffixes es ++
  [routesIndexSuffix] ++
  (if gq then graphqlSuffixes else []) ++
  frontendFixedSuffixes ++
  featLoopSuffixes es ++
  (if ga then adminSuffixes else [])

/-- The relative destinations with every gate enabled. -/
def fullSuffixes (clock : Nat → Nat) (es : List Entity) : List String :=
  dockerSuffixes ++ ciSuffixes ++ terraformSuffixes ++ backendFixedSuffixes ++
  loop1Suffixes clock es 0 ++ loop2Suffixes es ++ [routesIndexSuffix] ++
  graphqlSuffixes ++ frontendFixedSuffixes ++ featLoopSuffixes es ++ adminSuffixes

/-!
### A classifier for destination suffixes

Every plan suffix starts with the fixed directory prefix of its category;
the classifier reads that prefix, which lets cross-category disequality be
settled once per category pair instead of once per path pair.
-/

/-- The category of a destination suffix, read off its leading characters. -/
def clasL (l : List Char) : Nat :=
  if "/backend/src/models/".data.isPrefixOf l then 0
  else if "/backend/migrations/".data.isPrefixOf l then 1
  else if "/backend/tests/".data.isPrefixOf l then 2
  else if "/backend/src/controllers/".data.isPrefixOf l then 3
  else if l = "/backend/src/routes/index.ts".data then 4
  else if "/backend/src/routes/".data.isPrefixOf l then 5
  else if "/frontend/src/app/features/".data.isPrefixOf l then 6
  else 7

/-- The classifier on `String`. -/
def clas (s : String) : Nat := clasL s.data

/-- The side conditions under which destination paths are pairwise
distinct: pairwise-distinct entity names, table names and kebab-cased
names, no kebab name equal to `index`, no slash in a kebab name. -/
def goodEntities (es : List Entity) : Prop :=
  (es.map (·.name)).Pairwise (· ≠ ·) ∧
  (es.map (·.tableName)).Pairwise (· ≠ ·) ∧
  ((es.map fun e => toKebab e.name).Pairwise (· ≠ ·)) ∧
  (∀ e ∈ es, toKebab e.name ≠ "index") ∧
  (∀ e ∈ es, '/' ∉ (toKebab e.name).data)

instance goodEntitiesDecidable (es : List Entity) : Decidable (goodEntities es) := by
  unfold goodEntities
  infer_instance

example : toPascal "post" = "Post" := by decide

example : toPascal "my-entity" = "MyEntity" := by decide

example : toPascal "Post" = "Post" := by decide

example : toKebab "Post" = "-post" := by decide

example : toKebab "MyEntity" = "-my-entity" := by decide

example : toKebab "post" = "post" := by decide

example : toCamel "my-entity" = some "myEntity" := by decide

example : toCamel "Post" = some "post" := by decide

example : toPascal "a--b" = "A-B" := by decide

example : toPascal "--a" = "-A" := by decide

/-!
## Helper lemmas about the naming transformers
-/

/-- The map `jsToUpper` fixes characters that are already upper-case ASCII. -/
theorem jsToUpper_of_upper {c : Char} (_h1 : 'A' ≤ c) (h2 : c ≤ 'Z') :
    jsToUpper c = c := by
  unfold jsToUpper
  rw [if_neg]
  rintro ⟨ha, -⟩
  exact absurd (le_trans ha h2) (by decide)

/-- Upper-case ASCII characters are word characters. -/
theorem isWordChar_of_upper {c : Char} (h1 : 'A' ≤ c) (h2 : c ≤ 'Z') :
    isWordChar c = true := by
  simp [isWordChar, h1, h2]

/-- Unfolding of the scanner at a non-hyphen head. -/
theorem pascalRest_cons_ne {c : Char} (rest : List Char) (hc : c ≠ '-') :
    pascalRest (c :: rest) = c :: pascalRest rest := by
  rw [pascalRest.eq_def]
  dsimp only
  rw [if_neg hc]

/-- The global `-\w` scan leaves a hyphen-free string unchanged. -/
theorem pascalRest_of_no_hyphen : ∀ l : List Char, '-' ∉ l → pascalRest l = l
  | [], _ => rfl
  | c :: rest, h => by
    have hc : c ≠ '-' := fun hc => h (hc ▸ List.mem_cons_self c rest)
    have hrest : '-' ∉ rest := fun hr => h (List.mem_cons_of_mem c hr)
    rw [pascalRest_cons_ne rest hc, pascalRest_of_no_hyphen rest hrest]

/-- The transform `toPascal` fixes every string that opens with an upper-case ASCII
letter and contains no hyphen. -/
theorem toPascal_fixed {s : String} {c : Char} {rest : List Char}
    (hdata : s.data = c :: rest) (h1 : 'A' ≤ c) (h2 : c ≤ 'Z')
    (hh : '-' ∉ s.data) : toPascal s = s := by
  have hrest : '-' ∉ rest := fun hr => hh (hdata ▸ List.mem_cons_of_mem c hr)
  cases s with
  | mk data =>
    simp only [String.data] at hdata
    subst hdata
    show (⟨pascalList (c :: rest)⟩ : String) = ⟨c :: rest⟩
    rw [pascalList, if_pos (isWordChar_of_upper h1 h2), jsToUpper_of_upper h1 h2,
      pascalRest_of_no_hyphen rest hrest]

/-- The source's `toKebab` computes exactly the amended-claim recursion. -/
theorem kebabList_eq_amended : ∀ l : List Char, kebabList l = kebabAmendedList l
  | [] => rfl
  | c :: rest => by
    rw [kebabAmendedList, ← kebabList_eq_amended rest]
    unfold kebabList
    rw [List.flatMap_cons, List.map_append]
    by_cases h : 'A' ≤ c ∧ c ≤ 'Z'
    · rw [if_pos h, if_pos h]
      rfl
    · rw [if_neg h, if_neg h]
      rfl

/-!
## C2 — what `toKebab` does to a leading capital
-/

/-- C2 counterexample: the claim says `toKebab` exempts a leading capital
and that the `Post` feature directory is named `post`; on the source,
`toKebab "Post" = "-post"`, which differs from the claim's reading
`kebabClaim "Post" = "post"`, and the `Post` feature directory is
`-post`. -/
theorem C2_counterexample :
    toKebab "Post" = "-post" ∧ kebabClaim "Post" = "post" ∧
    toKebab "Post" ≠ kebabClaim "Post" ∧
    featureDir "my-app" ⟨"Post", "posts"⟩ = "my-app/frontend/src/app/features/-post" ∧
    featureDir "my-app" ⟨"Post", "posts"⟩ ≠ "my-app/frontend/src/app/features/post" := by
  refine ⟨by decide, by decide, by decide, by decide, by decide⟩

/-- C2 amended: for every string, `toKebab` inserts a hyphen before every
upper-case character *including a leading one* and lower-cases everything;
for the entity `Post` the per-entity frontend artifacts are rooted under
the feature directory `-post`. -/
theorem C2_kebab_amended :
    (∀ s : String, toKebab s = kebabAmended s) ∧
    (∀ out : String, featureDir out ⟨"Post", "posts"⟩ = out ++ "/frontend/src/app/features/-post") ∧
    (∀ out : String, (featureEntries out ⟨"Post", "posts"⟩).map (·.dest) =
      [out ++ "/frontend/src/app/features/-post/-post.module.ts",
       out ++ "/frontend/src/app/features/-post/-post.service.ts",
       out ++ "/frontend/src/app/features/-post/-post-list.component.html",
       out ++ "/frontend/src/app/features/-post/-post-list.component.ts",
       out ++ "/frontend/src/app/features/-post/-post-form.component.html",
       out ++ "/frontend/src/app/features/-post/-post-form.component.ts"]) := by
  have hkeb : toKebab (Entity.mk "Post" "posts").name = "-post" := by decide
  refine ⟨fun s => congrArg String.mk (kebabList_eq_amended s.data), ?_, ?_⟩
  · intro out
    show out ++ "/frontend/src/app/features/" ++ toKebab (Entity.mk "Post" "posts").name = _
    rw [hkeb, String.append_assoc]
    exact congrArg (out ++ ·) (by decide)
  · intro out
    simp only [featureEntries, featureSuffixes, featureStem, featureDir, List.map_cons,
      List.map_nil, hkeb, String.append_assoc]
    refine List.ext_get rfl ?_
    intro n h1 h2
    have h6 : n < 6 := by simpa using h1
    interval_cases n <;>
      · simp only [List.get]
        exact congrArg (out ++ ·) (by decide)

/-!
## C3 — the kebab/pascal round trip
-/

/-- C3 counterexample: for the entity name `post`,
`toKebab (toPascal "post") = "-post"` while `toKebab "post" = "post"`, so
the round-trip law fails on the source. -/
theorem C3_counterexample :
    toKebab (toPascal "post") = "-post" ∧ toKebab "post" = "post" ∧
    toKebab (toPascal "post") ≠ toKebab "post" := by
  refine ⟨by decide, by decide, by decide⟩

/-- C3 amended: the round trip is stable for names already in pascal form
— opening with an upper-case ASCII letter and containing no hyphen —
because `toPascal` fixes them. -/
theorem C3_roundtrip_amended (s : String) (c : Char) (rest : List Char)
    (hdata : s.data = c :: rest) (h1 : 'A' ≤ c) (h2 : c ≤ 'Z')
    (hh : '-' ∉ s.data) :
    toPascal s = s ∧ toKebab (toPascal s) = toKebab s := by
  have h := toPascal_fixed hdata h1 h2 hh
  exact ⟨h, by rw [h]⟩

/-- C3 witness: the amended round trip at the entity name `Post`. -/
theorem C3_roundtrip_amended_witness :
    ("Post" : String).data = 'P' :: ['o', 's', 't'] ∧
    toPascal "Post" = "Post" ∧ toKebab (toPascal "Post") = toKebab "Post" := by
  refine ⟨by decide, ?_⟩
  have h := C3_roundtrip_amended "Post" 'P' ['o', 's', 't']
    (by decide) (by decide) (by decide) (by decide)
  exact h

/-!
## C4 — feature-flag resolution
-/

/-- C4 counterexample: the claim says a `null` schema field defers to the
command-line default; destructuring defaults replace only `undefined`, so
with default `true` a `null` field resolves to `null`, not `true`. -/
theorem C4_counterexample :
    resolveFlag JsonFlag.null true ≠ some true ∧
    resolveFlag JsonFlag.null true = none := by
  refine ⟨by decide, rfl⟩

/-- C4 amended: for each flag field (the rule is the same for all five),
an explicit boolean wins, an absent field takes the command-line default,
and a `null` field resolves to `null` — which every truthiness gate then
treats as disabled — rather than to the default. -/
theorem C4_flag_resolution_amended (f : JsonFlag) (d : Bool) :
    (∀ b, f = .bool b → resolveFlag f d = some b) ∧
    (f = .absent → resolveFlag f d = some d) ∧
    (f = .null → resolveFlag f d = none ∧ truthy (resolveFlag f d) = false) := by
  refine ⟨?_, ?_, ?_⟩
  · rintro b rfl; rfl
  · rintro rfl; rfl
  · rintro rfl; exact ⟨rfl, rfl⟩

/-- C4 witness: the amended rule evaluated on explicit, absent and `null`
fields against the default `true`. -/
theorem C4_flag_resolution_amended_witness :
    resolveFlag (JsonFlag.bool false) true = some false ∧
    resolveFlag JsonFlag.absent true = some true ∧
    resolveFlag JsonFlag.null true = none :=
  ⟨(C4_flag_resolution_amended (.bool false) true).1 false rfl,
   (C4_flag_resolution_amended .absent true).2.1 rfl,
   ((C4_flag_resolution_amended .null true).2.2 rfl).1⟩

/-!
## C10 — totality of the naming transformers
-/

/-- C10: `toPascal` and `toKebab` are total and map the empty string to
itself, while `toCamel` reads `s[0]` and is undefined on the empty string
but defined on every non-empty string. -/
theorem C10_transform_totality :
    toPascal "" = "" ∧ toKebab "" = "" ∧ toCamel "" = none ∧
    ∀ s : String, s ≠ "" → ∃ r, toCamel s = some r := by
  refine ⟨rfl, rfl, rfl, ?_⟩
  intro s hs
  cases s with
  | mk data =>
    cases data with
    | nil => exact absurd rfl hs
    | cons c cs => exact ⟨_, rfl⟩

/-- C10 witness: the non-emptiness hypothesis discharged at `"Post"`. -/
theorem C10_transform_totality_witness :
    ("Post" : String) ≠ "" ∧ ∃ r, toCamel "Post" = some r :=
  ⟨by decide, C10_transform_totality.2.2.2 "Post" (by decide)⟩

/-!
## C1 — migration count and timestamp monotonicity
-/

/-- C1: the plan always emits one migration entry per entity, but the
timestamp component embedded in the destination is the raw `Date.now()`
reading of that iteration; when two entities are generated within the same
millisecond (both readings `5` here) the embedded components are `[5, 5]`,
which is not strictly increasing — the planner does not enforce strict
monotonicity. -/
theorem C1_migration_timestamps_bug :
    (∀ clock : Nat → Nat,
      (migrationDests twoEntitySchema {} clock).length = twoEntitySchema.entities.length) ∧
    migrationDests twoEntitySchema {} (fun _ => 5) =
      ["my-app/backend/migrations/5-create-posts.ts",
       "my-app/backend/migrations/5-create-comments.ts"] ∧
    migStamps twoEntitySchema {} (fun _ => 5) = [5, 5] ∧
    ¬ (migStamps twoEntitySchema {} (fun _ => 5)).Pairwise (· < ·) := by
  refine ⟨fun clock => rfl, by decide, by decide, by decide⟩

/-- C5: with the command-line default `--terraform true` and the schema
override `terraform: false`, `generator.js` still creates the
`terraform` skeleton directory (gated on the raw flag) while generating no
terraform file (gated on the resolved flag), so the override does not
affect directories and files identically; the sibling variant's
resolved-flag skeleton omits the directory. -/
theorem C5_gating_mismatch :
    "my-app/terraform" ∈ skeletonDirs {} ∧
    (∀ e ∈ terraformEntries "my-app", e ∉ planGen c5Schema {} (fun _ => 0)) ∧
    "my-app/terraform" ∉ skeletonDirsAlt c5Schema {} := by
  refine ⟨by decide, by decide, by decide⟩

/-- C6 counterexample: under the command-line defaults the admin flag is
`true`, so the Scenario A plan does contain admin-panel files, contrary to
the claim's "no admin-panel files (the admin-dashboard default is
false)". -/
theorem C6_counterexample :
    ∃ e ∈ planGen scenarioSchema {} (fun _ => 0),
      e.templateId = "frontend/src/app/pages/pages.module.ts.ejs" := by
  decide

/-- C6 amended: Scenario A yields the `Post` backend quintet
(model/controller/route/migration/test), containerization files and
infrastructure-as-code files, and no GraphQL files — but admin-panel files
are present, because the command-line admin default is `true`. -/
theorem C6_scenario_amended :
    (∃ e ∈ planGen scenarioSchema {} (fun _ => 0),
      e.dest = "my-app/backend/src/models/Post.ts") ∧
    (∃ e ∈ planGen scenarioSchema {} (fun _ => 0),
      e.dest = "my-app/backend/src/controllers/PostController.ts") ∧
    (∃ e ∈ planGen scenarioSchema {} (fun _ => 0),
      e.dest = "my-app/backend/src/routes/-post.ts") ∧
    (∃ e ∈ planGen scenarioSchema {} (fun _ => 0),
      e.templateId = migrationTemplateId) ∧
    (∃ e ∈ planGen scenarioSchema {} (fun _ => 0),
      e.dest = "my-app/backend/tests/Post.test.ts") ∧
    (∃ e ∈ planGen scenarioSchema {} (fun _ => 0),
      e.dest = "my-app/docker-compose.yml") ∧
    (∃ e ∈ planGen scenarioSchema {} (fun _ => 0),
      e.dest = "my-app/terraform/main.tf") ∧
    (∀ e ∈ planGen scenarioSchema {} (fun _ => 0),
      e.templateId ≠ "backend/src/graphql/typeDefs.ts.ejs" ∧
      e.templateId ≠ "backend/src/graphql/resolvers.ts.ejs") ∧
    (∃ e ∈ planGen scenarioSchema {} (fun _ => 0),
      e.templateId = "frontend/src/app/pages/pages.module.ts.ejs") := by
  refine ⟨by decide, by decide, by decide, by decide, by decide, by decide, by decide,
    by decide, by decide⟩

/-!
## C9 — determinism of the plan
-/

/-- C9 counterexample: two runs on the identical schema and options but
different wall-clock readings produce different plans, so the plan is not
a function of (Schema, ResolvedConfig) alone. -/
theorem C9_counterexample :
    planGen scenarioSchema {} (fun _ => 0) ≠ planGen scenarioSchema {} (fun _ => 1) := by
  decide

/-- The template-id sequence of the model loop ignores the clock. -/
theorem modelLoop_map_tid (out : String) (c₁ c₂ : Nat → Nat) :
    ∀ (es : List Entity) (i : Nat),
      (modelLoop out c₁ es i).map (·.templateId) = (modelLoop out c₂ es i).map (·.templateId)
  | [], _ => rfl
  | e :: es, i => by
    simp only [modelLoop, List.map_cons]
    rw [modelLoop_map_tid out c₁ c₂ es (i + 1)]

/-- The non-migration entries of the model loop ignore the clock. -/
theorem modelLoop_filter_nonMig (out : String) (c₁ c₂ : Nat → Nat) :
    ∀ (es : List Entity) (i : Nat),
      (modelLoop out c₁ es i).filter nonMigration = (modelLoop out c₂ es i).filter nonMigration
  | [], _ => rfl
  | e :: es, i => by
    show PlanEntry.mk "backend/src/models/model.ts.ejs" (modelDest out e) ::
        PlanEntry.mk "backend/tests/model.test.ts.ejs" (testDest out e) ::
        (modelLoop out c₁ es (i + 1)).filter nonMigration =
      PlanEntry.mk "backend/src/models/model.ts.ejs" (modelDest out e) ::
        PlanEntry.mk "backend/tests/model.test.ts.ejs" (testDest out e) ::
        (modelLoop out c₂ es (i + 1)).filter nonMigration
    rw [modelLoop_filter_nonMig out c₁ c₂ es (i + 1)]

/-- C9 amended: the plan is a deterministic function of the schema, the
options and the per-iteration clock readings; every part of it except the
migration destinations — the template-id sequence and all non-migration
entries — is independent of the clock. -/
theorem C9_determinism_amended (sch : Schema) (o : Opts) (c₁ c₂ : Nat → Nat) :
    (planGen sch o c₁).map (·.templateId) = (planGen sch o c₂).map (·.templateId) ∧
    (planGen sch o c₁).filter nonMigration = (planGen sch o c₂).filter nonMigration := by
  constructor
  · simp only [planGen, List.map_append]
    rw [modelLoop_map_tid o.output c₁ c₂ sch.entities 0]
  · simp only [planGen, List.filter_append]
    rw [modelLoop_filter_nonMig o.output c₁ c₂ sch.entities 0]

/-!
## C8 — schema load failure leaves the output directory untouched
-/

/-- C8: when the schema file is missing or fails to parse, the run reports
a diagnostic on the error stream and exits non-zero, and the effect trace
contains no directory clear, no directory creation and no file write. -/
theorem C8_load_failure (load : LoadResult) (o : Opts) (clock : Nat → Nat)
    (h : load = .notFound ∨ load = .parseError) :
    mainExit load ≠ 0 ∧
    (∃ m, Eff.errLog m ∈ mainEffects load o clock) ∧
    (∀ d, Eff.emptyDir d ∉ mainEffects load o clock) ∧
    (∀ d, Eff.ensureDir d ∉ mainEffects load o clock) ∧
    (∀ p, Eff.writeFile p ∉ mainEffects load o clock) := by
  rcases h with rfl | rfl <;>
    exact ⟨by simp [mainExit], ⟨_, List.mem_singleton_self _⟩,
      fun d => by simp [mainEffects], fun d => by simp [mainEffects],
      fun p => by simp [mainEffects]⟩

/-- C8 witness: the missing-schema case at the default options. -/
theorem C8_load_failure_witness :
    (LoadResult.notFound = LoadResult.notFound ∨ LoadResult.notFound = LoadResult.parseError) ∧
    mainExit LoadResult.notFound ≠ 0 ∧
    Eff.emptyDir "my-app" ∉ mainEffects LoadResult.notFound {} (fun _ => 0) :=
  ⟨Or.inl rfl, (C8_load_failure LoadResult.notFound {} (fun _ => 0) (Or.inl rfl)).1,
   (C8_load_failure LoadResult.notFound {} (fun _ => 0) (Or.inl rfl)).2.2.1 "my-app"⟩

/-- C7 counterexample: for the entity named `index`, the per-entity route
file and the route-aggregation file are both `backend/src/routes/index.ts`,
so the plan's destination paths are not pairwise distinct. -/
theorem C7_counterexample :
    ¬ ((planGen c7Schema c7Opts (fun _ => 0)).map (·.dest)).Nodup := by
  decide

/-!
### General helpers for path disequality
-/

/-- A list is a `isPrefixOf` itself followed by anything. -/
theorem isPrefixOf_self_append : ∀ (p x : List Char), p.isPrefixOf (p ++ x) = true
  | [], _ => by simp [List.isPrefixOf]
  | c :: p, x => by
    simp only [List.cons_append, List.isPrefixOf_cons₂_self, isPrefixOf_self_append p x]

/-- A list `q` is not a prefix of `p ++ x` when `q` and `p` already disagree on
their first `m` characters. -/
theorem not_isPrefixOf_of_take_ne {q p : List Char} (x : List Char) (m : Nat)
    (hmq : m ≤ q.length) (hmp : m ≤ p.length) (h : q.take m ≠ p.take m) :
    ¬ (q.isPrefixOf (p ++ x) = true) := by
  intro hq
  rw [List.isPrefixOf_iff_prefix] at hq
  obtain ⟨r, hr⟩ := hq
  apply h
  have h2 := congrArg (List.take m) hr
  rwa [List.take_append_of_le_length hmq, List.take_append_of_le_length hmp] at h2

/-- Appending to `p` cannot reach `q` when `p` and `q` already disagree on their first `m`
characters. -/
theorem append_ne_of_take_ne {p q : List Char} (x : List Char) (m : Nat)
    (hmp : m ≤ p.length) (hmq : m ≤ q.length) (h : p.take m ≠ q.take m) :
    p ++ x ≠ q := by
  intro he
  apply h
  calc p.take m = (p ++ x).take m := (List.take_append_of_le_length hmp).symm
  _ = q.take m := by rw [he]

/-- Characters produced by `digitChar` are decimal digits. -/
theorem digitChar_isDigit (d : Nat) : (digitChar d).isDigit = true := by
  unfold digitChar
  split <;> rfl

/-- Every character the decimal loop produces is a digit. -/
theorem natDecimalAux_digits :
    ∀ (fuel n : Nat) (acc : List Char), (∀ c ∈ acc, c.isDigit = true) →
      ∀ c ∈ natDecimalAux fuel n acc, c.isDigit = true
  | 0, _, _, hacc => hacc
  | fuel + 1, n, acc, hacc => by
    rw [natDecimalAux]
    split
    · intro c hc
      rcases List.mem_cons.1 hc with rfl | hc
      · exact digitChar_isDigit n
      · exact hacc c hc
    · refine natDecimalAux_digits fuel (n / 10) _ ?_
      intro c hc
      rcases List.mem_cons.1 hc with rfl | hc
      · exact digitChar_isDigit (n % 10)
      · exact hacc c hc

/-- Every character of a decimal rendering is a digit. -/
theorem natDecimal_digits (n : Nat) : ∀ c ∈ natDecimal n, c.isDigit = true :=
  natDecimalAux_digits (n + 1) n [] (by intro c hc; cases hc)

/-- A decimal run followed by a hyphen determines both itself and the
remainder. -/
theorem digits_dash_cancel :
    ∀ (a : List Char), (∀ c ∈ a, c.isDigit = true) →
    ∀ (b : List Char), (∀ c ∈ b, c.isDigit = true) →
    ∀ (u v : List Char), a ++ '-' :: u = b ++ '-' :: v → a = b ∧ u = v
  | [], _, [], _, u, v, h => by
    simp only [List.nil_append, List.cons.injEq] at h
    exact ⟨rfl, h.2⟩
  | [], _, d :: b, hb, u, v, h => by
    simp only [List.nil_append, List.cons_append, List.cons.injEq] at h
    have : d.isDigit = true := hb d (List.mem_cons_self d b)
    rw [← h.1] at this
    cases this
  | c :: a, ha, [], _, u, v, h => by
    simp only [List.nil_append, List.cons_append, List.cons.injEq] at h
    have : c.isDigit = true := ha c (List.mem_cons_self c a)
    rw [h.1] at this
    cases this
  | c :: a, ha, d :: b, hb, u, v, h => by
    simp only [List.cons_append, List.cons.injEq] at h
    obtain ⟨rfl, h2⟩ := h
    obtain ⟨h3, h4⟩ := digits_dash_cancel a (fun x hx => ha x (List.mem_cons_of_mem c hx))
      b (fun x hx => hb x (List.mem_cons_of_mem c hx)) u v h2
    exact ⟨by rw [h3], h4⟩

/-- Two slash-free segments followed by a slash separate a path: if the
segments differ, the paths differ. -/
theorem slash_sep :
    ∀ (k : List Char), '/' ∉ k → ∀ (j : List Char), '/' ∉ j → k ≠ j →
    ∀ (r r' : List Char), k ++ '/' :: r ≠ j ++ '/' :: r'
  | [], _, [], _, hne, _, _ => absurd rfl hne
  | [], _, c :: j, hj, _, r, r' => by
    intro h
    simp only [List.nil_append, List.cons_append, List.cons.injEq] at h
    exact hj (h.1 ▸ List.mem_cons_self c j)
  | c :: k, hk, [], _, _, r, r' => by
    intro h
    simp only [List.nil_append, List.cons_append, List.cons.injEq] at h
    exact hk (h.1 ▸ List.mem_cons_self c k)
  | c :: k, hk, d :: j, hj, hne, r, r' => by
    intro h
    simp only [List.cons_append, List.cons.injEq] at h
    obtain ⟨rfl, h2⟩ := h
    by_cases hkj : k = j
    · exact hne (by rw [hkj])
    · exact slash_sep k (fun hm => hk (List.mem_cons_of_mem c hm))
        j (fun hm => hj (List.mem_cons_of_mem c hm)) hkj r r' h2

/-- Cancelling a common literal prefix and suffix of a string equation. -/
theorem affix_inj {pre suf a b : String} (h : pre ++ a ++ suf = pre ++ b ++ suf) :
    a = b := by
  apply String.ext
  have h2 := congrArg String.data h
  simp only [String.data_append] at h2
  exact List.append_cancel_left (List.append_cancel_right h2)

/-- Prepending a fixed string is injective. -/
theorem append_left_injective_str (out : String) : Function.Injective (out ++ ·) := by
  intro a b h
  apply String.ext
  have h2 := congrArg String.data h
  simp only [String.data_append] at h2
  exact List.append_cancel_left h2

/-- Pointwise-distinct images under any function give disjoint lists. -/
theorem disjoint_of_ne_under {α β : Type} (f : α → β) {l₁ l₂ : List α}
    (h : ∀ x ∈ l₁, ∀ y ∈ l₂, f x ≠ f y) : l₁.Disjoint l₂ :=
  fun x h1 h2 => h x h1 x h2 rfl

theorem clasL_models (x : List Char) : clasL ("/backend/src/models/".data ++ x) = 0 := by
  unfold clasL
  rw [if_pos (isPrefixOf_self_append _ _)]

theorem clasL_migrations (x : List Char) : clasL ("/backend/migrations/".data ++ x) = 1 := by
  unfold clasL
  rw [if_neg (not_isPrefixOf_of_take_ne x 10 (by decide) (by decide) (by decide)),
    if_pos (isPrefixOf_self_append _ _)]

theorem clasL_tests (x : List Char) : clasL ("/backend/tests/".data ++ x) = 2 := by
  unfold clasL
  rw [if_neg (not_isPrefixOf_of_take_ne x 10 (by decide) (by decide) (by decide)),
    if_neg (not_isPrefixOf_of_take_ne x 10 (by decide) (by decide) (by decide)),
    if_pos (isPrefixOf_self_append _ _)]

theorem clasL_controllers (x : List Char) :
    clasL ("/backend/src/controllers/".data ++ x) = 3 := by
  unfold clasL
  rw [if_neg (not_isPrefixOf_of_take_ne x 14 (by decide) (by decide) (by decide)),
    if_neg (not_isPrefixOf_of_take_ne x 10 (by decide) (by decide) (by decide)),
    if_neg (not_isPrefixOf_of_take_ne x 10 (by decide) (by decide) (by decide)),
    if_pos (isPrefixOf_self_append _ _)]

theorem clasL_routes (x : List Char)
    (h : "/backend/src/routes/".data ++ x ≠ "/backend/src/routes/index.ts".data) :
    clasL ("/backend/src/routes/".data ++ x) = 5 := by
  unfold clasL
  rw [if_neg (not_isPrefixOf_of_take_ne x 14 (by decide) (by decide) (by decide)),
    if_neg (not_isPrefixOf_of_take_ne x 10 (by decide) (by decide) (by decide)),
    if_neg (not_isPrefixOf_of_take_ne x 10 (by decide) (by decide) (by decide)),
    if_neg (not_isPrefixOf_of_take_ne x 14 (by decide) (by decide) (by decide)),
    if_neg h, if_pos (isPrefixOf_self_append _ _)]

theorem clasL_features (x : List Char) :
    clasL ("/frontend/src/app/features/".data ++ x) = 6 := by
  unfold clasL
  rw [if_neg (not_isPrefixOf_of_take_ne x 2 (by decide) (by decide) (by decide)),
    if_neg (not_isPrefixOf_of_take_ne x 2 (by decide) (by decide) (by decide)),
    if_neg (not_isPrefixOf_of_take_ne x 2 (by decide) (by decide) (by decide)),
    if_neg (not_isPrefixOf_of_take_ne x 2 (by decide) (by decide) (by decide)),
    if_neg (append_ne_of_take_ne x 2 (by decide) (by decide) (by decide)),
    if_neg (not_isPrefixOf_of_take_ne x 2 (by decide) (by decide) (by decide)),
    if_pos (isPrefixOf_self_append _ _)]

/-!
### Data shapes and classes of the suffix builders
-/

theorem modelSuffix_data (e : Entity) :
    (modelSuffix e).data = "/backend/src/models/".data ++ (e.name.data ++ ".ts".data) := by
  simp [modelSuffix, String.data_append, List.append_assoc]

theorem migSuffix_data (t : Nat) (e : Entity) :
    (migSuffix t e).data = "/backend/migrations/".data ++
      (natDecimal t ++ ('-' :: ("create-".data ++ (e.tableName.data ++ ".ts".data)))) := by
  simp [migSuffix, String.data_append, List.append_assoc]

theorem testSuffix_data (e : Entity) :
    (testSuffix e).data = "/backend/tests/".data ++ (e.name.data ++ ".test.ts".data) := by
  simp [testSuffix, String.data_append, List.append_assoc]

theorem controllerSuffix_data (e : Entity) :
    (controllerSuffix e).data =
      "/backend/src/controllers/".data ++ (e.name.data ++ "Controller.ts".data) := by
  simp [controllerSuffix, String.data_append, List.append_assoc]

theorem routeSuffix_data (e : Entity) :
    (routeSuffix e).data =
      "/backend/src/routes/".data ++ ((toKebab e.name).data ++ ".ts".data) := by
  simp [routeSuffix, String.data_append, List.append_assoc]

theorem featureSuffix_data (e : Entity) (s : String) :
    (featureStemSuffix e ++ s).data = "/frontend/src/app/features/".data ++
      ((toKebab e.name).data ++ ('/' :: ((toKebab e.name).data ++ s.data))) := by
  simp [featureStemSuffix, String.data_append, List.append_assoc]

theorem clas_model (e : Entity) : clas (modelSuffix e) = 0 := by
  unfold clas
  rw [modelSuffix_data]
  exact clasL_models _

theorem clas_mig (t : Nat) (e : Entity) : clas (migSuffix t e) = 1 := by
  unfold clas
  rw [migSuffix_data]
  exact clasL_migrations _

theorem clas_test (e : Entity) : clas (testSuffix e) = 2 := by
  unfold clas
  rw [testSuffix_data]
  exact clasL_tests _

theorem clas_controller (e : Entity) : clas (controllerSuffix e) = 3 := by
  unfold clas
  rw [controllerSuffix_data]
  exact clasL_controllers _

theorem clas_route (e : Entity) (h : toKebab e.name ≠ "index") :
    clas (routeSuffix e) = 5 := by
  unfold clas
  rw [routeSuffix_data]
  refine clasL_routes _ ?_
  intro he
  rw [show ("/backend/src/routes/index.ts".data : List Char) =
      "/backend/src/routes/".data ++ "index.ts".data from by decide] at he
  have h3 := List.append_cancel_left he
  rw [show ("index.ts".data : List Char) = "index".data ++ ".ts".data from by decide] at h3
  exact h (String.ext (List.append_cancel_right h3))

theorem clas_featureSuf (e : Entity) (s : String) :
    clas (featureStemSuffix e ++ s) = 6 := by
  unfold clas
  rw [featureSuffix_data]
  exact clasL_features _

theorem clas_routesIndex : clas routesIndexSuffix = 4 := by decide

theorem clas_docker7 : ∀ s ∈ dockerSuffixes, clas s = 7 := by decide

theorem clas_ci7 : ∀ s ∈ ciSuffixes, clas s = 7 := by decide

theorem clas_terraform7 : ∀ s ∈ terraformSuffixes, clas s = 7 := by decide

theorem clas_backendFixed7 : ∀ s ∈ backendFixedSuffixes, clas s = 7 := by decide

theorem clas_graphql7 : ∀ s ∈ graphqlSuffixes, clas s = 7 := by decide

theorem clas_frontendFixed7 : ∀ s ∈ frontendFixedSuffixes, clas s = 7 := by decide

theorem clas_admin7 : ∀ s ∈ adminSuffixes, clas s = 7 := by decide

/-!
### Injectivity of the suffix builders within their categories
-/

theorem modelSuffix_inj {e e' : Entity} (h : modelSuffix e = modelSuffix e') :
    e.name = e'.name := affix_inj h

theorem testSuffix_inj {e e' : Entity} (h : testSuffix e = testSuffix e') :
    e.name = e'.name := affix_inj h

theorem controllerSuffix_inj {e e' : Entity} (h : controllerSuffix e = controllerSuffix e') :
    e.name = e'.name := affix_inj h

theorem routeSuffix_inj {e e' : Entity} (h : routeSuffix e = routeSuffix e') :
    toKebab e.name = toKebab e'.name := affix_inj h

theorem migSuffix_inj {t t' : Nat} {e e' : Entity} (h : migSuffix t e = migSuffix t' e') :
    e.tableName = e'.tableName := by
  have hd := congrArg String.data h
  rw [migSuffix_data, migSuffix_data] at hd
  have h2 := List.append_cancel_left hd
  obtain ⟨-, h3⟩ := digits_dash_cancel _ (natDecimal_digits t) _ (natDecimal_digits t') _ _ h2
  exact String.ext (List.append_cancel_right (List.append_cancel_left h3))

/-- Strings of different classes differ. -/
theorem ne_of_clas {x y : String} (h : clas x ≠ clas y) : x ≠ y :=
  fun he => h (congrArg clas he)

/-- Feature paths of entities with different, slash-free kebab names
differ, whatever file suffixes they carry. -/
theorem featureSuf_ne {e e' : Entity} (hk : toKebab e.name ≠ toKebab e'.name)
    (h1 : '/' ∉ (toKebab e.name).data) (h2 : '/' ∉ (toKebab e'.name).data) (s s' : String) :
    featureStemSuffix e ++ s ≠ featureStemSuffix e' ++ s' := by
  intro h
  have hd := congrArg String.data h
  rw [featureSuffix_data, featureSuffix_data] at hd
  have h3 := List.append_cancel_left hd
  exact slash_sep _ h1 _ h2 (fun hdd => hk (String.ext hdd)) _ _ h3

/-!
### Membership shapes of the per-entity segments
-/

theorem mem_loop1 (clock : Nat → Nat) :
    ∀ (es : List Entity) (i : Nat) (y : String), y ∈ loop1Suffixes clock es i →
      ∃ e ∈ es, y = modelSuffix e ∨ (∃ t, y = migSuffix t e) ∨ y = testSuffix e
  | [], _, y, hy => absurd hy (List.not_mem_nil y)
  | e :: es, i, y, hy => by
    rcases List.mem_cons.1 hy with rfl | hy
    · exact ⟨e, List.mem_cons_self e es, Or.inl rfl⟩
    rcases List.mem_cons.1 hy with rfl | hy
    · exact ⟨e, List.mem_cons_self e es, Or.inr (Or.inl ⟨clock i, rfl⟩)⟩
    rcases List.mem_cons.1 hy with rfl | hy
    · exact ⟨e, List.mem_cons_self e es, Or.inr (Or.inr rfl)⟩
    · obtain ⟨e', he', hf⟩ := mem_loop1 clock es (i + 1) y hy
      exact ⟨e', List.mem_cons_of_mem e he', hf⟩

theorem mem_loop2 :
    ∀ (es : List Entity) (y : String), y ∈ loop2Suffixes es →
      ∃ e ∈ es, y = controllerSuffix e ∨ y = routeSuffix e
  | [], y, hy => absurd hy (List.not_mem_nil y)
  | e :: es, y, hy => by
    rcases List.mem_cons.1 hy with rfl | hy
    · exact ⟨e, List.mem_cons_self e es, Or.inl rfl⟩
    rcases List.mem_cons.1 hy with rfl | hy
    · exact ⟨e, List.mem_cons_self e es, Or.inr rfl⟩
    · obtain ⟨e', he', hf⟩ := mem_loop2 es y hy
      exact ⟨e', List.mem_cons_of_mem e he', hf⟩

theorem mem_featLoop :
    ∀ (es : List Entity) (y : String), y ∈ featLoopSuffixes es →
      ∃ e ∈ es, ∃ p ∈ featureSuffixes, y = featureStemSuffix e ++ p.2
  | [], y, hy => absurd hy (List.not_mem_nil y)
  | e :: es, y, hy => by
    rcases List.mem_append.1 hy with hy | hy
    · obtain ⟨p, hp, hpe⟩ := List.mem_map.1 hy
      exact ⟨e, List.mem_cons_self e es, p, hp, hpe.symm⟩
    · obtain ⟨e', he', hf⟩ := mem_featLoop es y hy
      exact ⟨e', List.mem_cons_of_mem e he', hf⟩

theorem mem_loop1_clas (clock : Nat → Nat) (es : List Entity) (i : Nat) (y : String)
    (hy : y ∈ loop1Suffixes clock es i) : clas y = 0 ∨ clas y = 1 ∨ clas y = 2 := by
  obtain ⟨e, -, hf⟩ := mem_loop1 clock es i y hy
  rcases hf with rfl | ⟨t, rfl⟩ | rfl
  · exact Or.inl (clas_model e)
  · exact Or.inr (Or.inl (clas_mig t e))
  · exact Or.inr (Or.inr (clas_test e))

theorem mem_loop2_clas (es : List Entity) (hidx : ∀ e ∈ es, toKebab e.name ≠ "index")
    (y : String) (hy : y ∈ loop2Suffixes es) : clas y = 3 ∨ clas y = 5 := by
  obtain ⟨e, he, hf⟩ := mem_loop2 es y hy
  rcases hf with rfl | rfl
  · exact Or.inl (clas_controller e)
  · exact Or.inr (clas_route e (hidx e he))

theorem mem_feat_clas (es : List Entity) (y : String)
    (hy : y ∈ featLoopSuffixes es) : clas y = 6 := by
  obtain ⟨e, -, p, -, rfl⟩ := mem_featLoop es y hy
  exact clas_featureSuf e p.2

/-!
### `Nodup` of the per-entity segments
-/

theorem loop1_nodup (clock : Nat → Nat) :
    ∀ (es : List Entity) (i : Nat),
      (es.map (·.name)).Pairwise (· ≠ ·) →
      (es.map (·.tableName)).Pairwise (· ≠ ·) →
      (loop1Suffixes clock es i).Nodup
  | [], _, _, _ => List.nodup_nil
  | e :: es, i, hn, ht => by
    rw [List.map_cons, List.pairwise_cons] at hn ht
    refine List.nodup_cons.2 ⟨?_, List.nodup_cons.2 ⟨?_, List.nodup_cons.2
      ⟨?_, loop1_nodup clock es (i + 1) hn.2 ht.2⟩⟩⟩
    · intro hmem
      rcases List.mem_cons.1 hmem with heq | hmem
      · exact ne_of_clas (by rw [clas_model, clas_mig]; decide) heq
      rcases List.mem_cons.1 hmem with heq | hmem
      · exact ne_of_clas (by rw [clas_model, clas_test]; decide) heq
      obtain ⟨e', he', hf⟩ := mem_loop1 clock es (i + 1) _ hmem
      rcases hf with h1 | ⟨t, h1⟩ | h1
      · exact hn.1 _ (List.mem_map_of_mem (·.name) he') (modelSuffix_inj h1)
      · exact ne_of_clas (by rw [clas_model, clas_mig]; decide) h1
      · exact ne_of_clas (by rw [clas_model, clas_test]; decide) h1
    · intro hmem
      rcases List.mem_cons.1 hmem with heq | hmem
      · exact ne_of_clas (by rw [clas_mig, clas_test]; decide) heq
      obtain ⟨e', he', hf⟩ := mem_loop1 clock es (i + 1) _ hmem
      rcases hf with h1 | ⟨t, h1⟩ | h1
      · exact ne_of_clas (by rw [clas_mig, clas_model]; decide) h1
      · exact ht.1 _ (List.mem_map_of_mem (·.tableName) he') (migSuffix_inj h1)
      · exact ne_of_clas (by rw [clas_mig, clas_test]; decide) h1
    · intro hmem
      obtain ⟨e', he', hf⟩ := mem_loop1 clock es (i + 1) _ hmem
      rcases hf with h1 | ⟨t, h1⟩ | h1
      · exact ne_of_clas (by rw [clas_test, clas_model]; decide) h1
      · exact ne_of_clas (by rw [clas_test, clas_mig]; decide) h1
      · exact hn.1 _ (List.mem_map_of_mem (·.name) he') (testSuffix_inj h1)

theorem loop2_nodup :
    ∀ es : List Entity,
      (es.map (·.name)).Pairwise (· ≠ ·) →
      ((es.map fun e => toKebab e.name).Pairwise (· ≠ ·)) →
      (∀ e ∈ es, toKebab e.name ≠ "index") →
      (loop2Suffixes es).Nodup
  | [], _, _, _ => List.nodup_nil
  | e :: es, hn, hk, hidx => by
    rw [List.map_cons, List.pairwise_cons] at hn hk
    have hidx' : ∀ e' ∈ es, toKebab e'.name ≠ "index" :=
      fun e' he' => hidx e' (List.mem_cons_of_mem e he')
    refine List.nodup_cons.2 ⟨?_, List.nodup_cons.2 ⟨?_, loop2_nodup es hn.2 hk.2 hidx'⟩⟩
    · intro hmem
      rcases List.mem_cons.1 hmem with heq | hmem
      · exact ne_of_clas
          (by rw [clas_controller, clas_route e (hidx e (List.mem_cons_self e es))]; decide) heq
      obtain ⟨e', he', hf⟩ := mem_loop2 es _ hmem
      rcases hf with h1 | h1
      · exact hn.1 _ (List.mem_map_of_mem (·.name) he') (controllerSuffix_inj h1)
      · exact ne_of_clas
          (by rw [clas_controller, clas_route e' (hidx' e' he')]; decide) h1
    · intro hmem
      obtain ⟨e', he', hf⟩ := mem_loop2 es _ hmem
      rcases hf with h1 | h1
      · exact ne_of_clas
          (by rw [clas_route e (hidx e (List.mem_cons_self e es)), clas_controller]; decide) h1
      · exact hk.1 _ (List.mem_map_of_mem (fun x => toKebab x.name) he') (routeSuffix_inj h1)

theorem featureSufList_nodup (e : Entity) : (featureSufList e).Nodup := by
  have h : featureSufList e = (featureSuffixes.map (·.2)).map (featureStemSuffix e ++ ·) := by
    rw [featureSufList, List.map_map]
    rfl
  rw [h]
  exact List.Nodup.map (append_left_injective_str _) (by decide)

theorem featLoop_nodup :
    ∀ es : List Entity,
      ((es.map fun e => toKebab e.name).Pairwise (· ≠ ·)) →
      (∀ e ∈ es, '/' ∉ (toKebab e.name).data) →
      (featLoopSuffixes es).Nodup
  | [], _, _ => List.nodup_nil
  | e :: es, hk, hs => by
    rw [List.map_cons, List.pairwise_cons] at hk
    have hs' : ∀ e' ∈ es, '/' ∉ (toKebab e'.name).data :=
      fun e' he' => hs e' (List.mem_cons_of_mem e he')
    refine List.Nodup.append (featureSufList_nodup e) (featLoop_nodup es hk.2 hs') ?_
    intro x hx hx'
    obtain ⟨p, -, rfl⟩ := List.mem_map.1 hx
    obtain ⟨e', he', q, -, hq⟩ := mem_featLoop es _ hx'
    refine featureSuf_ne ?_ (hs e (List.mem_cons_self e es)) (hs' e' he') p.2 q.2 hq
    exact hk.1 _ (List.mem_map_of_mem (fun x => toKebab x.name) he')

/-!
### The plan's destinations as mapped suffixes
-/

theorem modelDest_eq (out : String) (e : Entity) : modelDest out e = out ++ modelSuffix e := by
  apply String.ext
  simp [modelDest, modelSuffix, String.data_append, List.append_assoc]

theorem migrationDest_eq (out : String) (t : Nat) (e : Entity) :
    migrationDest out t e = out ++ migSuffix t e := by
  apply String.ext
  simp [migrationDest, migSuffix, String.data_append, List.append_assoc]

theorem testDest_eq (out : String) (e : Entity) : testDest out e = out ++ testSuffix e := by
  apply String.ext
  simp [testDest, testSuffix, String.data_append, List.append_assoc]

theorem controllerDest_eq (out : String) (e : Entity) :
    controllerDest out e = out ++ controllerSuffix e := by
  apply String.ext
  simp [controllerDest, controllerSuffix, String.data_append, List.append_assoc]

theorem routeDest_eq (out : String) (e : Entity) : routeDest out e = out ++ routeSuffix e := by
  apply String.ext
  simp [routeDest, routeSuffix, String.data_append, List.append_assoc]

theorem featureStem_eq (out : String) (e : Entity) :
    featureStem out e = out ++ featureStemSuffix e := by
  apply String.ext
  simp [featureStem, featureDir, featureStemSuffix, String.data_append, List.append_assoc]

theorem modelLoop_map_dest (out : String) (clock : Nat → Nat) :
    ∀ (es : List Entity) (i : Nat),
      (modelLoop out clock es i).map (·.dest) = (loop1Suffixes clock es i).map (out ++ ·)
  | [], _ => rfl
  | e :: es, i => by
    simp only [modelLoop, loop1Suffixes, List.map_cons]
    rw [modelLoop_map_dest out clock es (i + 1)]
    show modelDest out e :: migrationDest out (clock i) e :: testDest out e :: _ = _
    rw [modelDest_eq, migrationDest_eq, testDest_eq]

theorem controllerLoop_map_dest (out : String) :
    ∀ es : List Entity,
      (controllerLoop out es).map (·.dest) = (loop2Suffixes es).map (out ++ ·)
  | [] => rfl
  | e :: es => by
    simp only [controllerLoop, loop2Suffixes, List.map_cons]
    rw [controllerLoop_map_dest out es]
    show controllerDest out e :: routeDest out e :: _ = _
    rw [controllerDest_eq, routeDest_eq]

theorem featureEntries_map_dest (out : String) (e : Entity) :
    (featureEntries out e).map (·.dest) = (featureSufList e).map (out ++ ·) := by
  unfold featureEntries featureSufList
  rw [List.map_map, List.map_map]
  refine List.map_congr_left ?_
  intro p _
  show featureStem out e ++ p.2 = out ++ (featureStemSuffix e ++ p.2)
  rw [featureStem_eq, String.append_assoc]

theorem featureLoop_map_dest (out : String) :
    ∀ es : List Entity,
      (featureLoop out es).map (·.dest) = (featLoopSuffixes es).map (out ++ ·)
  | [] => rfl
  | e :: es => by
    simp only [featureLoop, featLoopSuffixes, List.map_append]
    rw [featureEntries_map_dest, featureLoop_map_dest out es]

/-- The destinations of `planGen` are exactly the gated suffixes prefixed
with the output root. -/
theorem planGen_dests (sch : Schema) (o : Opts) (clock : Nat → Nat) :
    (planGen sch o clock).map (·.dest) =
      (gatedSuffixes (truthy (resolveFlag sch.docker o.docker))
        (truthy (resolveFlag sch.ci o.ci)) (truthy (resolveFlag sch.terraform o.terraform))
        o.graphql o.admin clock sch.entities).map (o.output ++ ·) := by
  simp only [planGen, gatedSuffixes, gate, List.map_append,
    apply_ite (List.map (fun e : PlanEntry => e.dest)),
    apply_ite (List.map (fun s : String => o.output ++ s)), List.map_nil]
  rw [modelLoop_map_dest, controllerLoop_map_dest, featureLoop_map_dest]
  simp [dockerEntries, ciEntries, terraformEntries, backendFixedEntries, graphqlEntries,
    frontendFixedEntries, adminEntries, routesIndexEntry, dockerSuffixes, ciSuffixes,
    terraformSuffixes, backendFixedSuffixes, graphqlSuffixes, frontendFixedSuffixes,
    adminSuffixes, routesIndexSuffix]

/-- A gated block is a sublist of the block itself. -/
theorem if_sublist (b : Bool) (l : List String) : List.Sublist (if b then l else []) l := by
  cases b
  · exact List.nil_sublist l
  · exact List.Sublist.refl l

/-- Whatever the gates, the run's suffixes form a sublist of the
fully-enabled suffixes. -/
theorem gatedSuffixes_sublist (gd gc gt gq ga : Bool) (clock : Nat → Nat) (es : List Entity) :
    List.Sublist (gatedSuffixes gd gc gt gq ga clock es) (fullSuffixes clock es) := by
  unfold gatedSuffixes fullSuffixes
  exact List.Sublist.append (List.Sublist.append (List.Sublist.append (List.Sublist.append
    (List.Sublist.append (List.Sublist.append (List.Sublist.append (List.Sublist.append
    (List.Sublist.append (List.Sublist.append
      (if_sublist gd _) (if_sublist gc _)) (if_sublist gt _)) (List.Sublist.refl _))
      (List.Sublist.refl _)) (List.Sublist.refl _)) (List.Sublist.refl _)) (if_sublist gq _))
      (List.Sublist.refl _)) (List.Sublist.refl _)) (if_sublist ga _)

/-!
### Cross-segment disjointness and the master `Nodup`
-/

theorem disjoint7_loop1 {l : List String} (h7 : ∀ s ∈ l, clas s = 7)
    (clock : Nat → Nat) (es : List Entity) (i : Nat) :
    l.Disjoint (loop1Suffixes clock es i) :=
  disjoint_of_ne_under clas fun x hx y hy => by
    rw [h7 x hx]
    rcases mem_loop1_clas clock es i y hy with h | h | h <;> omega

theorem disjoint7_loop2 {l : List String} (h7 : ∀ s ∈ l, clas s = 7)
    (es : List Entity) (hidx : ∀ e ∈ es, toKebab e.name ≠ "index") :
    l.Disjoint (loop2Suffixes es) :=
  disjoint_of_ne_under clas fun x hx y hy => by
    rw [h7 x hx]
    rcases mem_loop2_clas es hidx y hy with h | h <;> omega

theorem disjoint7_feat {l : List String} (h7 : ∀ s ∈ l, clas s = 7)
    (es : List Entity) : l.Disjoint (featLoopSuffixes es) :=
  disjoint_of_ne_under clas fun x hx y hy => by
    rw [h7 x hx, mem_feat_clas es y hy]
    omega

theorem disjoint_loop1_loop2 (clock : Nat → Nat) (es : List Entity) (i : Nat)
    (es' : List Entity) (hidx : ∀ e ∈ es', toKebab e.name ≠ "index") :
    (loop1Suffixes clock es i).Disjoint (loop2Suffixes es') :=
  disjoint_of_ne_under clas fun x hx y hy => by
    rcases mem_loop1_clas clock es i x hx with h | h | h <;>
      rcases mem_loop2_clas es' hidx y hy with h2 | h2 <;> omega

theorem disjoint_loop1_idx (clock : Nat → Nat) (es : List Entity) (i : Nat) :
    (loop1Suffixes clock es i).Disjoint [routesIndexSuffix] :=
  disjoint_of_ne_under clas fun x hx y hy => by
    rw [List.mem_singleton] at hy
    subst hy
    rw [clas_routesIndex]
    rcases mem_loop1_clas clock es i x hx with h | h | h <;> omega

theorem disjoint_loop1_seven (clock : Nat → Nat) (es : List Entity) (i : Nat)
    {l : List String} (h7 : ∀ s ∈ l, clas s = 7) :
    (loop1Suffixes clock es i).Disjoint l :=
  disjoint_of_ne_under clas fun x hx y hy => by
    rw [h7 y hy]
    rcases mem_loop1_clas clock es i x hx with h | h | h <;> omega

theorem disjoint_loop1_feat (clock : Nat → Nat) (es : List Entity) (i : Nat)
    (es' : List Entity) : (loop1Suffixes clock es i).Disjoint (featLoopSuffixes es') :=
  disjoint_of_ne_under clas fun x hx y hy => by
    rw [mem_feat_clas es' y hy]
    rcases mem_loop1_clas clock es i x hx with h | h | h <;> omega

theorem disjoint_loop2_idx (es : List Entity)
    (hidx : ∀ e ∈ es, toKebab e.name ≠ "index") :
    (loop2Suffixes es).Disjoint [routesIndexSuffix] :=
  disjoint_of_ne_under clas fun x hx y hy => by
    rw [List.mem_singleton] at hy
    subst hy
    rw [clas_routesIndex]
    rcases mem_loop2_clas es hidx x hx with h | h <;> omega

theorem disjoint_loop2_seven (es : List Entity)
    (hidx : ∀ e ∈ es, toKebab e.name ≠ "index")
    {l : List String} (h7 : ∀ s ∈ l, clas s = 7) :
    (loop2Suffixes es).Disjoint l :=
  disjoint_of_ne_under clas fun x hx y hy => by
    rw [h7 y hy]
    rcases mem_loop2_clas es hidx x hx with h | h <;> omega

theorem disjoint_loop2_feat (es : List Entity)
    (hidx : ∀ e ∈ es, toKebab e.name ≠ "index") (es' : List Entity) :
    (loop2Suffixes es).Disjoint (featLoopSuffixes es') :=
  disjoint_of_ne_under clas fun x hx y hy => by
    rw [mem_feat_clas es' y hy]
    rcases mem_loop2_clas es hidx x hx with h | h <;> omega

theorem disjoint_idx_feat (es : List Entity) :
    ([routesIndexSuffix] : List String).Disjoint (featLoopSuffixes es) :=
  disjoint_of_ne_under clas fun x hx y hy => by
    rw [List.mem_singleton] at hx
    subst hx
    rw [clas_routesIndex, mem_feat_clas es y hy]
    omega

theorem disjoint_feat_seven (es : List Entity) {l : List String}
    (h7 : ∀ s ∈ l, clas s = 7) : (featLoopSuffixes es).Disjoint l :=
  disjoint_of_ne_under clas fun x hx y hy => by
    rw [h7 y hy, mem_feat_clas es x hx]
    omega

/-- The fully-enabled suffix list has no duplicate, provided the entities'
names, table names and kebab names are pairwise distinct and no kebab name
is `index` or contains a slash. -/
theorem fullSuffixes_nodup (clock : Nat → Nat) (es : List Entity)
    (hn : (es.map (·.name)).Pairwise (· ≠ ·))
    (ht : (es.map (·.tableName)).Pairwise (· ≠ ·))
    (hk : ((es.map fun e => toKebab e.name).Pairwise (· ≠ ·)))
    (hidx : ∀ e ∈ es, toKebab e.name ≠ "index")
    (hs : ∀ e ∈ es, '/' ∉ (toKebab e.name).data) :
    (fullSuffixes clock es).Nodup := by
  unfold fullSuffixes
  refine List.Nodup.append ?_ (by decide) ?_
  · refine List.Nodup.append ?_ (featLoop_nodup es hk hs) ?_
    · refine List.Nodup.append ?_ (by decide) ?_
      · refine List.Nodup.append ?_ (by decide) ?_
        · refine List.Nodup.append ?_ (by decide) ?_
          · refine List.Nodup.append ?_ (loop2_nodup es hn hk hidx) ?_
            · refine List.Nodup.append ?_ (loop1_nodup clock es 0 hn ht) ?_
              · refine List.Nodup.append ?_ (by decide) ?_
                · refine List.Nodup.append ?_ (by decide) ?_
                  · exact List.Nodup.append (by decide) (by decide)
                      (List.disjoint_left.mpr (by decide))
                  · simp only [List.disjoint_append_left]
                    exact ⟨List.disjoint_left.mpr (by decide), List.disjoint_left.mpr (by decide)⟩
                · simp only [List.disjoint_append_left]
                  exact ⟨⟨List.disjoint_left.mpr (by decide), List.disjoint_left.mpr (by decide)⟩,
                    List.disjoint_left.mpr (by decide)⟩
              · simp only [List.disjoint_append_left]
                exact ⟨⟨⟨disjoint7_loop1 clas_docker7 clock es 0,
                  disjoint7_loop1 clas_ci7 clock es 0⟩,
                  disjoint7_loop1 clas_terraform7 clock es 0⟩,
                  disjoint7_loop1 clas_backendFixed7 clock es 0⟩
            · simp only [List.disjoint_append_left]
              exact ⟨⟨⟨⟨disjoint7_loop2 clas_docker7 es hidx,
                disjoint7_loop2 clas_ci7 es hidx⟩,
                disjoint7_loop2 clas_terraform7 es hidx⟩,
                disjoint7_loop2 clas_backendFixed7 es hidx⟩,
                disjoint_loop1_loop2 clock es 0 es hidx⟩
          · simp only [List.disjoint_append_left]
            exact ⟨⟨⟨⟨⟨List.disjoint_left.mpr (by decide), List.disjoint_left.mpr (by decide)⟩,
              List.disjoint_left.mpr (by decide)⟩, List.disjoint_left.mpr (by decide)⟩,
              disjoint_loop1_idx clock es 0⟩, disjoint_loop2_idx es hidx⟩
        · simp only [List.disjoint_append_left]
          exact ⟨⟨⟨⟨⟨⟨List.disjoint_left.mpr (by decide), List.disjoint_left.mpr (by decide)⟩,
            List.disjoint_left.mpr (by decide)⟩, List.disjoint_left.mpr (by decide)⟩,
            disjoint_loop1_seven clock es 0 clas_graphql7⟩,
            disjoint_loop2_seven es hidx clas_graphql7⟩, List.disjoint_left.mpr (by decide)⟩
      · simp only [List.disjoint_append_left]
        exact ⟨⟨⟨⟨⟨⟨⟨List.disjoint_left.mpr (by decide), List.disjoint_left.mpr (by decide)⟩,
          List.disjoint_left.mpr (by decide)⟩, List.disjoint_left.mpr (by decide)⟩,
          disjoint_loop1_seven clock es 0 clas_frontendFixed7⟩,
          disjoint_loop2_seven es hidx clas_frontendFixed7⟩,
          List.disjoint_left.mpr (by decide)⟩, List.disjoint_left.mpr (by decide)⟩
    · simp only [List.disjoint_append_left]
      exact ⟨⟨⟨⟨⟨⟨⟨⟨disjoint7_feat clas_docker7 es, disjoint7_feat clas_ci7 es⟩,
        disjoint7_feat clas_terraform7 es⟩, disjoint7_feat clas_backendFixed7 es⟩,
        disjoint_loop1_feat clock es 0 es⟩, disjoint_loop2_feat es hidx es⟩,
        disjoint_idx_feat es⟩, disjoint7_feat clas_graphql7 es⟩,
        disjoint7_feat clas_frontendFixed7 es⟩
  · simp only [List.disjoint_append_left]
    exact ⟨⟨⟨⟨⟨⟨⟨⟨⟨List.disjoint_left.mpr (by decide), List.disjoint_left.mpr (by decide)⟩,
      List.disjoint_left.mpr (by decide)⟩, List.disjoint_left.mpr (by decide)⟩,
      disjoint_loop1_seven clock es 0 clas_admin7⟩,
      disjoint_loop2_seven es hidx clas_admin7⟩, List.disjoint_left.mpr (by decide)⟩,
      List.disjoint_left.mpr (by decide)⟩, List.disjoint_left.mpr (by decide)⟩,
      disjoint_feat_seven es clas_admin7⟩

/-- C7 amended: destination paths are unique across the whole plan for
every schema whose entities satisfy `goodEntities` — pairwise-distinct
names, table names and kebab names, no kebab name `index` (which would
collide with the route-aggregation file) and no slash in a kebab name. -/
theorem C7_uniqueness_amended (sch : Schema) (o : Opts) (clock : Nat → Nat)
    (h : goodEntities sch.entities) :
    ((planGen sch o clock).map (·.dest)).Nodup := by
  obtain ⟨hn, ht, hk, hidx, hs⟩ := h
  rw [planGen_dests]
  refine List.Nodup.map (append_left_injective_str o.output) ?_
  exact List.Nodup.sublist (gatedSuffixes_sublist _ _ _ _ _ clock sch.entities)
    (fullSuffixes_nodup clock sch.entities hn ht hk hidx hs)

/-- C7 witness: the amended uniqueness at the Scenario A schema. -/
theorem C7_uniqueness_amended_witness :
    goodEntities scenarioSchema.entities ∧
    ((planGen scenarioSchema {} (fun _ => 0)).map (·.dest)).Nodup :=
  ⟨by decide, C7_uniqueness_amended scenarioSchema {} (fun _ => 0) (by decide)⟩

end AMAA
